import Mathlib

/-!
# Verification of `tasmota_tool.py`

A shallow embedding of the Tasmota testing & provisioning CLI tool
(`src/python_part3/tasmota_tool.py`) together with proofs of the
specification claims about it.

Conventions of the embedding:

* Parsed JSON documents (the results of `json.loads` and of the HTTP
  transport) are modelled by the inductive type `Json`.  Numbers are
  modelled as rationals, covering both Python `int` and `float` exactly
  as values; `bool` is a separate constructor, but the numeric check
  treats it as numeric because in Python `bool` is a subclass of `int`.
* Python dictionaries are insertion-ordered association lists
  (`List (String × Json)`); assignment is `dictSet`, which overwrites an
  existing key in place (keeping its position) and otherwise appends.
* Fallible Python code (code that may raise) is embedded in
  `Except String α`; a caught exception corresponds to matching on the
  `.error` constructor.
* Network I/O is abstracted by oracles: a probe/command oracle maps the
  request to either an exception (`.error`) or a parsed response
  (`.ok`).  Quantifying over all oracles quantifies over all transport
  behaviours.
-/

/-- JSON-like values, the result of parsing a payload or an HTTP response. -/
inductive Json where
  | null : Json
  | bool (b : Bool) : Json
  | num (q : Rat) : Json
  | str (s : String) : Json
  | arr (xs : List Json) : Json
  | obj (kvs : List (String × Json)) : Json

/-- Model of Python `repr` for the values that can appear in a payload.
(String escaping and float formatting are approximated; the structure —
quoted strings, bracketed lists, braced objects, `None`/`True`/`False` —
follows Python.) -/
def pyRepr : Json → String
  | .null => "None"
  | .bool true => "True"
  | .bool false => "False"
  | .num q => toString q
  | .str s => "\x27" ++ s ++ "\x27"
  | .arr xs => "[" ++ String.intercalate ", " (xs.attach.map fun x => pyRepr x.1) ++ "]"
  | .obj kvs =>
      "\x7b" ++ String.intercalate ", "
        (kvs.attach.map fun kv => "\x27" ++ kv.1.1 ++ "\x27: " ++ pyRepr kv.1.2) ++ "\x7d"
decreasing_by
  · simp_wf
    have := List.sizeOf_lt_of_mem x.2
    omega
  · simp_wf
    obtain ⟨⟨a, b⟩, hm⟩ := kv
    have := List.sizeOf_lt_of_mem hm
    simp at this ⊢
    omega

/-- Python `d.get(k)` on a dict: `none` when the key is absent *or* its
stored value is `None` (both give the Python value `None`, which is what
the source code's `is None` tests observe). -/
def pyGet (kvs : List (String × Json)) (k : String) : Option Json :=
  match List.lookup k kvs with
  | some Json.null => none
  | some v => some v
  | none => none

/-- Python `d.get(k, default)` on a dict: the stored value when the key is
present (even if it is `None`), otherwise the default. -/
def pyGetD (kvs : List (String × Json)) (k : String) (default : Json) : Json :=
  match List.lookup k kvs with
  | some v => v
  | none => default

/-- Python `isinstance(v, (int, float))`.  `True`/`False` pass the check
because Python `bool` is a subclass of `int`. -/
def isNumeric : Json → Bool
  | .num _ => true
  | .bool _ => true
  | _ => false

/-- The `REQUIRED_KEYS` list from the source (line 141). -/
def REQUIRED_KEYS : List String := ["Temperature", "Humidity", "Pressure"]

/-- Body of the `for k in REQUIRED_KEYS` loop of `validate_payload`
(lines 150–155): the errors contributed by one field of the
`CustomSensor` section. -/
def checkKeyErr (cskvs : List (String × Json)) (k : String) : List String :=
  match pyGet cskvs k with
  | none => ["Missing \x27" ++ k ++ "\x27"]
  | some v => if isNumeric v then [] else ["\x27" ++ k ++ "\x27 not numeric: " ++ pyRepr v]

/-- Embedding of `validate_payload` (lines 145–156).  Calling `.get` on a non-dict
value raises `AttributeError` in Python; those raises are embedded as
`.error`.  A `CustomSensor` value of `None` (JSON null) is indistinguishable
from an absent key through `payload.get`, so it takes the missing-key
branch. -/
def validate_payload (payload : Json) : Except String (List String) :=
  match payload with
  | .obj kvs =>
      match pyGet kvs "CustomSensor" with
      | none => .ok ["Missing \x27CustomSensor\x27 key"]
      | some (.obj cskvs) =>
          .ok (REQUIRED_KEYS.foldl (fun errs k => errs ++ checkKeyErr cskvs k) [])
      | some _ => .error "AttributeError: \x27get\x27"
  | _ => .error "AttributeError: \x27get\x27"

/-- Whether a field is present (and non-null) with a numeric value in a
section — the condition under which the loop body contributes no error. -/
def numericPresent (cskvs : List (String × Json)) (k : String) : Bool :=
  match pyGet cskvs k with
  | some v => isNumeric v
  | none => false

lemma checkKeyErr_eq_nil_iff (cskvs : List (String × Json)) (k : String) :
    checkKeyErr cskvs k = [] ↔ numericPresent cskvs k = true := by
  unfold checkKeyErr numericPresent
  cases h : pyGet cskvs k with
  | none => simp
  | some v => cases hv : isNumeric v <;> simp [hv]

lemma validate_payload_section (kvs cskvs : List (String × Json))
    (h : List.lookup "CustomSensor" kvs = some (Json.obj cskvs)) :
    validate_payload (Json.obj kvs) =
      .ok (checkKeyErr cskvs "Temperature" ++ checkKeyErr cskvs "Humidity" ++
           checkKeyErr cskvs "Pressure") := by
  simp [validate_payload, pyGet, h, REQUIRED_KEYS]

lemma checkKeyErr_of_bad (cskvs : List (String × Json)) (k : String) (v : Json)
    (hv : pyGet cskvs k = some v) (hnum : isNumeric v = false) :
    checkKeyErr cskvs k = ["\x27" ++ k ++ "\x27 not numeric: " ++ pyRepr v] := by
  simp [checkKeyErr, hv, hnum]

/-- Claim C3: For every payload (object) in which the required `CustomSensor`
key is absent, `validate_payload` returns exactly the single missing-section
error — a result independent of any field content, so no field-level check
contributes. -/
theorem C3_missing_section_single_error (kvs : List (String × Json))
    (h : List.lookup "CustomSensor" kvs = none) :
    validate_payload (Json.obj kvs) = .ok ["Missing \x27CustomSensor\x27 key"] := by
  simp [validate_payload, pyGet, h]

theorem C3_missing_section_single_error_witness :
    validate_payload (Json.obj [("Other", Json.num 1)]) =
      .ok ["Missing \x27CustomSensor\x27 key"] :=
  C3_missing_section_single_error [("Other", Json.num 1)] rfl

/-- Claim C4: When the `CustomSensor` section is present as an object, the
validator checks the three fixed fields: the result is the concatenation of
each field's own errors (accumulating, in field order); it is empty iff all
three fields are present and numeric; and when exactly one field is present
with a non-numeric value (the other two numeric), the result is exactly that
field's type error, naming the field and the offending value. -/
theorem C4_field_checks (kvs cskvs : List (String × Json))
    (h : List.lookup "CustomSensor" kvs = some (Json.obj cskvs)) :
    validate_payload (Json.obj kvs) =
      .ok (checkKeyErr cskvs "Temperature" ++ checkKeyErr cskvs "Humidity" ++
           checkKeyErr cskvs "Pressure")
    ∧ (validate_payload (Json.obj kvs) = .ok [] ↔
        ∀ k ∈ REQUIRED_KEYS, numericPresent cskvs k = true)
    ∧ (∀ k ∈ REQUIRED_KEYS, ∀ v, pyGet cskvs k = some v → isNumeric v = false →
        (∀ k2 ∈ REQUIRED_KEYS, k2 ≠ k → numericPresent cskvs k2 = true) →
        validate_payload (Json.obj kvs) =
          .ok ["\x27" ++ k ++ "\x27 not numeric: " ++ pyRepr v]) := by
  refine ⟨validate_payload_section kvs cskvs h, ?_, ?_⟩
  · rw [validate_payload_section kvs cskvs h]
    simp [REQUIRED_KEYS, checkKeyErr_eq_nil_iff]
  · intro k hk v hv hnum hrest
    rw [validate_payload_section kvs cskvs h]
    simp only [REQUIRED_KEYS, List.mem_cons, List.not_mem_nil, or_false] at hk
    have hnil : ∀ k2, k2 ∈ REQUIRED_KEYS → k2 ≠ k → checkKeyErr cskvs k2 = [] := by
      intro k2 hk2 hne
      exact (checkKeyErr_eq_nil_iff cskvs k2).mpr (hrest k2 hk2 hne)
    rcases hk with rfl | rfl | rfl
    · have h2 := hnil "Humidity" (by simp [REQUIRED_KEYS]) (by simp)
      have h3 := hnil "Pressure" (by simp [REQUIRED_KEYS]) (by simp)
      rw [checkKeyErr_of_bad cskvs _ v hv hnum, h2, h3]
      simp
    · have h1 := hnil "Temperature" (by simp [REQUIRED_KEYS]) (by simp)
      have h3 := hnil "Pressure" (by simp [REQUIRED_KEYS]) (by simp)
      rw [checkKeyErr_of_bad cskvs _ v hv hnum, h1, h3]
      simp
    · have h1 := hnil "Temperature" (by simp [REQUIRED_KEYS]) (by simp)
      have h2 := hnil "Humidity" (by simp [REQUIRED_KEYS]) (by simp)
      rw [checkKeyErr_of_bad cskvs _ v hv hnum, h1, h2]
      simp

theorem C4_field_checks_witness :
    validate_payload (Json.obj [("CustomSensor", Json.obj
        [("Temperature", Json.num 21), ("Humidity", Json.str "wet"),
         ("Pressure", Json.num 1013)])]) =
      .ok ["\x27" ++ "Humidity" ++ "\x27 not numeric: " ++ pyRepr (Json.str "wet")] :=
  (C4_field_checks
    [("CustomSensor", Json.obj [("Temperature", Json.num 21),
        ("Humidity", Json.str "wet"), ("Pressure", Json.num 1013)])]
    [("Temperature", Json.num 21), ("Humidity", Json.str "wet"),
        ("Pressure", Json.num 1013)] rfl).2.2 "Humidity" (by simp [REQUIRED_KEYS])
    (Json.str "wet") rfl rfl
    (by intro k2 hk2 hne
        simp only [REQUIRED_KEYS, List.mem_cons, List.not_mem_nil, or_false] at hk2
        rcases hk2 with rfl | rfl | rfl
        · rfl
        · exact absurd rfl hne
        · rfl)

/-- Claim C9, counterexample to the claim as stated: A payload whose
`CustomSensor` key is present with the non-object value `null` does *not*
make `validate_payload` raise: `payload.get` returns Python `None` for a
null value just as for an absent key, so the missing-key branch is taken
and an ordinary error list is returned. -/
theorem C9_counterexample :
    validate_payload (Json.obj [("CustomSensor", Json.null)]) =
      .ok ["Missing \x27CustomSensor\x27 key"]
    ∧ ∀ e, validate_payload (Json.obj [("CustomSensor", Json.null)]) ≠ .error e := by
  constructor
  · rfl
  · intro e he
    simp [validate_payload, pyGet] at he

/-- Claim C9, amended: For every payload in which the `CustomSensor` key is
present with a value that is neither an object nor null (a number, string,
list or boolean), `validate_payload` raises (`AttributeError`, embedded as
`.error`) instead of returning an error list. -/
theorem C9_nonobject_section_raises (kvs : List (String × Json)) (v : Json)
    (h : List.lookup "CustomSensor" kvs = some v) (hnull : v ≠ Json.null)
    (hobj : ∀ cskvs, v ≠ Json.obj cskvs) :
    validate_payload (Json.obj kvs) = .error "AttributeError: \x27get\x27" := by
  cases v with
  | null => exact absurd rfl hnull
  | obj cskvs => exact absurd rfl (hobj cskvs)
  | bool b => simp [validate_payload, pyGet, h]
  | num q => simp [validate_payload, pyGet, h]
  | str s => simp [validate_payload, pyGet, h]
  | arr xs => simp [validate_payload, pyGet, h]

theorem C9_nonobject_section_raises_witness :
    validate_payload (Json.obj [("CustomSensor", Json.num 5)]) =
      .error "AttributeError: \x27get\x27" :=
  C9_nonobject_section_raises [("CustomSensor", Json.num 5)] (Json.num 5)
    rfl (by simp) (by intro cskvs; simp)

/-- Claim C10: Boolean field values are accepted as numeric (Python `bool` is
a subclass of `int`, so `isinstance(v, (int, float))` holds): a payload
whose three required fields are all booleans validates with an empty error
sequence. -/
theorem C10_booleans_accepted (kvs cskvs : List (String × Json)) (b1 b2 b3 : Bool)
    (h : List.lookup "CustomSensor" kvs = some (Json.obj cskvs))
    (h1 : List.lookup "Temperature" cskvs = some (Json.bool b1))
    (h2 : List.lookup "Humidity" cskvs = some (Json.bool b2))
    (h3 : List.lookup "Pressure" cskvs = some (Json.bool b3)) :
    validate_payload (Json.obj kvs) = .ok [] := by
  rw [validate_payload_section kvs cskvs h]
  simp [checkKeyErr, pyGet, h1, h2, h3, isNumeric]

theorem C10_booleans_accepted_witness :
    validate_payload (Json.obj [("CustomSensor", Json.obj
        [("Temperature", Json.bool true), ("Humidity", Json.bool false),
         ("Pressure", Json.bool true)])]) = .ok [] :=
  C10_booleans_accepted _ _ true false true rfl rfl rfl rfl

/-- A probed device (`probe_tasmota`, lines 53–63): address, hostname and
telemetry topic as taken from the status response (`hostname`/`topic` keep
whatever JSON value the device sent; a missing topic is Python `None`,
i.e. `Json.null`). -/
structure Device where
  ip : String
  hostname : Json
  topic : Json

/-- The HTTP transport for one status query: either a raised exception
(transport error, timeout, non-success status, JSON decode error — all of
`http_get_json`'s failure modes) or the parsed response. -/
abbrev HttpOracle := String → Except String Json

/-- Python `x.get(k, default)` where `x` is an arbitrary value: raises
`AttributeError` unless `x` is a dict. -/
def pyGetAttrD (x : Json) (k : String) (default : Json) : Except String Json :=
  match x with
  | .obj kvs => .ok (pyGetD kvs k default)
  | _ => .error "AttributeError: \x27get\x27"

/-- The `try` body of `probe_tasmota` (lines 54–61): query `Status 0`,
require a dict containing both `StatusNET` and `Status`, then read hostname
(defaulting to the probed address) and topic (defaulting to `None`).
`.error` is any exception raised inside the body. -/
def probeBody (http : HttpOracle) (ip : String) : Except String (Option Device) :=
  match http ip with
  | .error e => .error e
  | .ok data =>
      match data with
      | .obj kvs =>
          if (List.lookup "StatusNET" kvs).isSome && (List.lookup "Status" kvs).isSome then
            match pyGetAttrD (pyGetD kvs "StatusNET" (.obj [])) "Hostname" (.str ip) with
            | .error e => .error e
            | .ok host =>
                match pyGetAttrD (pyGetD kvs "Status" (.obj [])) "Topic" .null with
                | .error e => .error e
                | .ok topicv => .ok (some ⟨ip, host, topicv⟩)
          else .ok none
      | _ => .ok none

/-- Embedding of `probe_tasmota` (lines 53–63): the body wrapped in
`try ... except Exception: return None`. -/
def probe_tasmota (http : HttpOracle) (ip : String) : Option Device :=
  match probeBody http ip with
  | .ok r => r
  | .error _ => none

/-- Whether a status response is a dict containing both required sections
(the line-57 check). -/
def hasStatusSections : Json → Bool
  | .obj kvs => (List.lookup "StatusNET" kvs).isSome && (List.lookup "Status" kvs).isSome
  | _ => false

lemma probe_tasmota_ip (http : HttpOracle) (ip : String) (d : Device)
    (h : probe_tasmota http ip = some d) : d.ip = ip := by
  unfold probe_tasmota probeBody at h
  cases hh : http ip with
  | error e => rw [hh] at h; simp at h
  | ok data =>
    rw [hh] at h
    cases data with
    | obj kvs =>
        by_cases hb : ((List.lookup "StatusNET" kvs).isSome
            && (List.lookup "Status" kvs).isSome) = true
        · simp only [hb, if_true] at h
          cases h1 : pyGetAttrD (pyGetD kvs "StatusNET" (.obj [])) "Hostname" (.str ip) with
          | error e => rw [h1] at h; simp at h
          | ok host =>
            rw [h1] at h
            cases h2 : pyGetAttrD (pyGetD kvs "Status" (.obj [])) "Topic" .null with
            | error e => rw [h2] at h; simp at h
            | ok topicv =>
              rw [h2] at h
              simp at h
              rw [← h]
        · simp only [Bool.not_eq_true] at hb
          simp [hb] at h
    | null => simp at h
    | bool b => simp at h
    | num q => simp at h
    | str s => simp at h
    | arr xs => simp at h

/-- Embedding of `discover` (lines 67–87), after the scan has produced its set of
candidate addresses: probe each distinct collected address in ascending
order (`for ip in sorted(listener.ips)`) and keep the successful probes. -/
def discover (http : HttpOracle) (ips : List String) : List Device :=
  ((ips.dedup).insertionSort (· ≤ ·)).filterMap (probe_tasmota http)

/-- Claim C7: `probe_tasmota` never raises: it is a total function, and every
exception of the body (transport error, timeout, malformed response) as
well as every structurally bad response (not a dict containing both the
`StatusNET` and `Status` sections) yields `none`.  On success the device
keeps the probed address, the hostname defaults to the probed address when
the response carries no `Hostname`, and the topic is `None` when the
response carries no `Topic`. -/
theorem C7_probe_never_raises (http : HttpOracle) (ip : String) :
    (∀ e, http ip = .error e → probe_tasmota http ip = none)
    ∧ (∀ e, probeBody http ip = .error e → probe_tasmota http ip = none)
    ∧ (∀ data, http ip = .ok data → hasStatusSections data = false →
        probe_tasmota http ip = none)
    ∧ (∀ d, probe_tasmota http ip = some d → d.ip = ip)
    ∧ (∀ kvs snkvs d, http ip = .ok (.obj kvs) →
        List.lookup "StatusNET" kvs = some (.obj snkvs) →
        List.lookup "Hostname" snkvs = none →
        probe_tasmota http ip = some d → d.hostname = .str ip)
    ∧ (∀ kvs stkvs d, http ip = .ok (.obj kvs) →
        List.lookup "Status" kvs = some (.obj stkvs) →
        List.lookup "Topic" stkvs = none →
        probe_tasmota http ip = some d → d.topic = .null) := by
  refine ⟨?_, ?_, ?_, fun d => probe_tasmota_ip http ip d, ?_, ?_⟩
  · intro e he
    simp [probe_tasmota, probeBody, he]
  · intro e he
    simp [probe_tasmota, he]
  · intro data hd hbad
    cases data with
    | obj kvs =>
        simp only [hasStatusSections] at hbad
        simp [probe_tasmota, probeBody, hd, hbad]
    | null => simp [probe_tasmota, probeBody, hd]
    | bool b => simp [probe_tasmota, probeBody, hd]
    | num q => simp [probe_tasmota, probeBody, hd]
    | str s => simp [probe_tasmota, probeBody, hd]
    | arr xs => simp [probe_tasmota, probeBody, hd]
  · intro kvs snkvs d hd hsn hhost hp
    unfold probe_tasmota probeBody at hp
    rw [hd] at hp
    have hdef : pyGetAttrD (pyGetD kvs "StatusNET" (.obj [])) "Hostname" (.str ip) =
        .ok (.str ip) := by
      simp [pyGetD, hsn, pyGetAttrD, hhost]
    by_cases hb : ((List.lookup "StatusNET" kvs).isSome
        && (List.lookup "Status" kvs).isSome) = true
    · simp only [hb, if_true, hdef] at hp
      cases h2 : pyGetAttrD (pyGetD kvs "Status" (.obj [])) "Topic" .null with
      | error e => rw [h2] at hp; simp at hp
      | ok topicv =>
        rw [h2] at hp
        simp at hp
        rw [← hp]
    · simp only [Bool.not_eq_true] at hb
      simp [hb] at hp
  · intro kvs stkvs d hd hst htop hp
    unfold probe_tasmota probeBody at hp
    rw [hd] at hp
    have hdef : pyGetAttrD (pyGetD kvs "Status" (.obj [])) "Topic" .null = .ok .null := by
      simp [pyGetD, hst, pyGetAttrD, htop]
    by_cases hb : ((List.lookup "StatusNET" kvs).isSome
        && (List.lookup "Status" kvs).isSome) = true
    · simp only [hb, if_true, hdef] at hp
      cases h1 : pyGetAttrD (pyGetD kvs "StatusNET" (.obj [])) "Hostname" (.str ip) with
      | error e => rw [h1] at hp; simp at hp
      | ok host =>
        rw [h1] at hp
        simp at hp
        rw [← hp]
    · simp only [Bool.not_eq_true] at hb
      simp [hb] at hp

theorem C7_probe_never_raises_witness :
    probe_tasmota (fun _ => .error "timeout") "10.0.0.9" = none
    ∧ probe_tasmota (fun _ => .ok (Json.num 3)) "10.0.0.9" = none
    ∧ probe_tasmota (fun _ => .ok (Json.obj [("Other", Json.null)])) "10.0.0.9" = none
    ∧ probe_tasmota
        (fun _ => .ok (Json.obj [("StatusNET", Json.str "x"), ("Status", Json.obj [])]))
        "10.0.0.9" = none
    ∧ (⟨"10.0.0.9", Json.str "10.0.0.9", Json.null⟩ : Device).hostname = Json.str "10.0.0.9"
    ∧ (⟨"10.0.0.9", Json.str "10.0.0.9", Json.null⟩ : Device).topic = Json.null := by
  refine ⟨?_, ?_, ?_, ?_, ?_, ?_⟩
  · exact (C7_probe_never_raises (fun _ => .error "timeout") "10.0.0.9").1 "timeout" rfl
  · exact (C7_probe_never_raises (fun _ => .ok (Json.num 3)) "10.0.0.9").2.2.1
      (Json.num 3) rfl rfl
  · exact (C7_probe_never_raises (fun _ => .ok (Json.obj [("Other", Json.null)]))
      "10.0.0.9").2.2.1 (Json.obj [("Other", Json.null)]) rfl rfl
  · exact (C7_probe_never_raises
      (fun _ => .ok (Json.obj [("StatusNET", Json.str "x"), ("Status", Json.obj [])]))
      "10.0.0.9").2.1 "AttributeError: \x27get\x27" rfl
  · exact (C7_probe_never_raises
      (fun _ => .ok (Json.obj [("StatusNET", Json.obj []), ("Status", Json.obj [])]))
      "10.0.0.9").2.2.2.2.1 [("StatusNET", Json.obj []), ("Status", Json.obj [])] [] _
      rfl rfl rfl rfl
  · exact (C7_probe_never_raises
      (fun _ => .ok (Json.obj [("StatusNET", Json.obj []), ("Status", Json.obj [])]))
      "10.0.0.9").2.2.2.2.2 [("StatusNET", Json.obj []), ("Status", Json.obj [])] [] _
      rfl rfl rfl rfl

lemma map_ip_filterMap (p : String → Option Device)
    (hp : ∀ a d, p a = some d → d.ip = a) (l : List String) :
    (l.filterMap p).map Device.ip = l.filter (fun a => (p a).isSome) := by
  induction l with
  | nil => rfl
  | cons a t ih =>
    cases h : p a with
    | none => simp [List.filterMap_cons, h, List.filter_cons, ih]
    | some d => simp [List.filterMap_cons, h, List.filter_cons, ih, hp a d h]

/-- Claim C5: For a fixed set of collected candidate addresses and a fixed
transport, `discover` returns exactly the devices whose probe succeeded,
taken from the ascending (sorted, deduplicated) candidate list: the result
addresses are the sorted candidates filtered to probe successes, the result
is in ascending address order, and every returned device is its own
address's probe result. -/
theorem C5_discover_ascending (http : HttpOracle) (ips : List String) :
    (discover http ips).map Device.ip =
      ((ips.dedup).insertionSort (· ≤ ·)).filter (fun a => (probe_tasmota http a).isSome)
    ∧ List.Sorted (· ≤ ·) ((discover http ips).map Device.ip)
    ∧ ∀ d ∈ discover http ips, probe_tasmota http d.ip = some d := by
  have hmap := map_ip_filterMap (probe_tasmota http)
    (fun a d => probe_tasmota_ip http a d) ((ips.dedup).insertionSort (· ≤ ·))
  refine ⟨hmap, ?_, ?_⟩
  · show List.Sorted (· ≤ ·) ((discover http ips).map Device.ip)
    rw [show discover http ips =
        ((ips.dedup).insertionSort (· ≤ ·)).filterMap (probe_tasmota http) from rfl, hmap]
    exact (List.sorted_insertionSort _ _).filter _
  · intro d hd
    simp only [discover, List.mem_filterMap] at hd
    obtain ⟨a, _, ha⟩ := hd
    rw [probe_tasmota_ip http a d ha]
    exact ha

theorem C5_discover_ascending_witness :
    probe_tasmota (fun _ => .ok (Json.obj [("StatusNET", Json.obj []), ("Status", Json.obj [])]))
      "10.0.0.5" = some ⟨"10.0.0.5", Json.str "10.0.0.5", Json.null⟩ := by
  have hmem : (⟨"10.0.0.5", Json.str "10.0.0.5", Json.null⟩ : Device) ∈
      discover (fun _ => .ok (Json.obj [("StatusNET", Json.obj []), ("Status", Json.obj [])]))
        ["10.0.0.5"] := by
    rw [show discover
        (fun _ => .ok (Json.obj [("StatusNET", Json.obj []), ("Status", Json.obj [])]))
        ["10.0.0.5"] = [⟨"10.0.0.5", Json.str "10.0.0.5", Json.null⟩] from rfl]
    exact List.mem_singleton.mpr rfl
  exact (C5_discover_ascending
      (fun _ => .ok (Json.obj [("StatusNET", Json.obj []), ("Status", Json.obj [])]))
      ["10.0.0.5"]).2.2 ⟨"10.0.0.5", Json.str "10.0.0.5", Json.null⟩ hmem

/-- The command transport (`cmd`, lines 93–95): maps the full command
string sent to `/cm` to either a raised exception or the parsed JSON
response. -/
abbrev CmdOracle := String → Except String Json

/-- A `ConfigurationResult`: Python's insertion-ordered dict from command
name to raw response (or the redaction marker). -/
abbrev ConfigRes := List (String × Json)

/-- Python dict assignment `d[k] = v`: overwrite an existing key in place
(keeping its position), else append at the end. -/
def dictSet : ConfigRes → String → Json → ConfigRes
  | [], k, v => [(k, v)]
  | (k0, v0) :: rest, k, v =>
      if k0 = k then (k0, v) :: rest else (k0, v0) :: dictSet rest k v

/-- One mandatory configuration command: `res[name] = cmd(ip, f"{name} {arg}")`.
Also records the issued command string in the trace. -/
def reqCmd (oracle : CmdOracle) (name arg : String) (res : ConfigRes)
    (tr : List String) : Except String (ConfigRes × List String) :=
  match oracle (name ++ " " ++ arg) with
  | .error e => .error e
  | .ok r => .ok (dictSet res name r, tr ++ [name ++ " " ++ arg])

/-- One conditional configuration command: `if cond: res[name] = cmd(...)`. -/
def optCmd (oracle : CmdOracle) (cond : Bool) (name arg : String) (res : ConfigRes)
    (tr : List String) : Except String (ConfigRes × List String) :=
  if cond then reqCmd oracle name arg res tr else .ok (res, tr)

/-- Python truthiness of the optional `topic` argument (`if topic:`):
false for `None` and for the empty string. -/
def pyTruthy : Option String → Bool
  | none => false
  | some s => !s.isEmpty

/-- The redaction epilogue of `configure` (lines 132–135): overwrite
`Password1`, and `MqttPassword` when present, with `"***"`. -/
def redact (res : ConfigRes) : ConfigRes :=
  let r := dictSet res "Password1" (.str "***")
  if (List.lookup "MqttPassword" r).isSome then dictSet r "MqttPassword" (.str "***") else r

/-- Embedding of `configure` (lines 115–136): issue the commands one at a time in the
fixed order, recording each raw response under its command name; a failed
command raises (the partial dict is local to the call and lost); on the
success path the secrets are redacted before returning.  The second
component of the result is the trace of issued command strings, in order. -/
def configure (oracle : CmdOracle) (ssid wifi_pass mqtt_host : String) (mqtt_port : Int)
    (mqtt_user mqtt_pass : String) (topic : Option String) :
    Except String (ConfigRes × List String) := do
  let (res, tr) ← reqCmd oracle "SSID1" ssid [] []
  let (res, tr) ← reqCmd oracle "Password1" wifi_pass res tr
  let (res, tr) ← reqCmd oracle "MqttHost" mqtt_host res tr
  let (res, tr) ← reqCmd oracle "MqttPort" (toString mqtt_port) res tr
  let (res, tr) ← optCmd oracle (!mqtt_user.isEmpty) "MqttUser" mqtt_user res tr
  let (res, tr) ← optCmd oracle (!mqtt_pass.isEmpty) "MqttPassword" mqtt_pass res tr
  let (res, tr) ← optCmd oracle (pyTruthy topic) "Topic" (topic.getD "") res tr
  let (res, tr) ← reqCmd oracle "TelePeriod" "10" res tr
  pure (redact res, tr)

lemma lookup_dictSet_self (l : ConfigRes) (k : String) (v : Json) :
    List.lookup k (dictSet l k v) = some v := by
  induction l with
  | nil => simp [dictSet, List.lookup]
  | cons hd tl ih =>
    obtain ⟨k0, v0⟩ := hd
    by_cases h : k0 = k
    · subst h
      simp [dictSet, List.lookup]
    · have hb : (k == k0) = false := by simp [Ne.symm h]
      simp [dictSet, h, List.lookup, hb, ih]

lemma lookup_dictSet_ne (l : ConfigRes) (k k2 : String) (v : Json) (h : k ≠ k2) :
    List.lookup k (dictSet l k2 v) = List.lookup k l := by
  induction l with
  | nil =>
    have hb : (k == k2) = false := by simp [h]
    simp [dictSet, List.lookup, hb]
  | cons hd tl ih =>
    obtain ⟨k0, v0⟩ := hd
    by_cases h0 : k0 = k2
    · subst h0
      have hb : (k == k0) = false := by simp [h]
      simp [dictSet, List.lookup, hb]
    · cases hk0 : (k == k0) <;> simp [dictSet, h0, List.lookup, hk0, ih]

lemma redact_password1 (res : ConfigRes) :
    List.lookup "Password1" (redact res) = some (.str "***") := by
  unfold redact
  cases hs : (List.lookup "MqttPassword" (dictSet res "Password1" (.str "***"))).isSome
  · simp only [hs, Bool.false_eq_true, if_false]
    exact lookup_dictSet_self res "Password1" (.str "***")
  · simp only [hs, if_true]
    rw [lookup_dictSet_ne _ _ _ _ (by simp)]
    exact lookup_dictSet_self res "Password1" (.str "***")

lemma redact_mqtt_password (res : ConfigRes) (v : Json)
    (h : List.lookup "MqttPassword" (redact res) = some v) : v = .str "***" := by
  unfold redact at h
  cases hs : (List.lookup "MqttPassword" (dictSet res "Password1" (.str "***"))).isSome
  · simp only [hs, Bool.false_eq_true, if_false] at h
    rw [h] at hs
    simp at hs
  · simp only [hs, if_true] at h
    rw [lookup_dictSet_self] at h
    exact (Option.some_injective _ h).symm

lemma configure_ok_shape (oracle : CmdOracle) (ssid wifi_pass mqtt_host : String)
    (mqtt_port : Int) (mqtt_user mqtt_pass : String) (topic : Option String)
    (out : ConfigRes × List String)
    (h : configure oracle ssid wifi_pass mqtt_host mqtt_port mqtt_user mqtt_pass topic
        = .ok out) : ∃ r, out.1 = redact r := by
  unfold configure at h
  simp only [bind, Except.bind, pure, Except.pure] at h
  cases h1 : reqCmd oracle "SSID1" ssid [] [] with
  | error e => simp [h1] at h
  | ok p1 =>
  obtain ⟨res1, tr1⟩ := p1
  simp only [h1] at h
  cases h2 : reqCmd oracle "Password1" wifi_pass res1 tr1 with
  | error e => simp [h2] at h
  | ok p2 =>
  obtain ⟨res2, tr2⟩ := p2
  simp only [h2] at h
  cases h3 : reqCmd oracle "MqttHost" mqtt_host res2 tr2 with
  | error e => simp [h3] at h
  | ok p3 =>
  obtain ⟨res3, tr3⟩ := p3
  simp only [h3] at h
  cases h4 : reqCmd oracle "MqttPort" (toString mqtt_port) res3 tr3 with
  | error e => simp [h4] at h
  | ok p4 =>
  obtain ⟨res4, tr4⟩ := p4
  simp only [h4] at h
  cases h5 : optCmd oracle (!mqtt_user.isEmpty) "MqttUser" mqtt_user res4 tr4 with
  | error e => simp [h5] at h
  | ok p5 =>
  obtain ⟨res5, tr5⟩ := p5
  simp only [h5] at h
  cases h6 : optCmd oracle (!mqtt_pass.isEmpty) "MqttPassword" mqtt_pass res5 tr5 with
  | error e => simp [h6] at h
  | ok p6 =>
  obtain ⟨res6, tr6⟩ := p6
  simp only [h6] at h
  cases h7 : optCmd oracle (pyTruthy topic) "Topic" (topic.getD "") res6 tr6 with
  | error e => simp [h7] at h
  | ok p7 =>
  obtain ⟨res7, tr7⟩ := p7
  simp only [h7] at h
  cases h8 : reqCmd oracle "TelePeriod" "10" res7 tr7 with
  | error e => simp [h8] at h
  | ok p8 =>
  obtain ⟨res8, tr8⟩ := p8
  simp only [h8] at h
  simp at h
  exact ⟨res8, ((congrArg Prod.fst h).symm : out.1 = redact res8)⟩

/-- Claim C2: Whatever the transport does, a `ConfigurationResult` that
`configure` actually returns has its `Password1` entry equal to the
redaction marker and its `MqttPassword` entry (when present) equal to the
redaction marker; and on the raising path `configure` returns no structure
at all (the partial dict is local and lost), so no caller-observable
structure ever carries a literal password entry.  (The second component of
`out` is the model's trace of issued command strings — the wire, not a
value the Python caller receives.) -/
theorem C2_no_password_leak (oracle : CmdOracle) (ssid wifi_pass mqtt_host : String)
    (mqtt_port : Int) (mqtt_user mqtt_pass : String) (topic : Option String)
    (out : ConfigRes × List String)
    (h : configure oracle ssid wifi_pass mqtt_host mqtt_port mqtt_user mqtt_pass topic
        = .ok out) :
    List.lookup "Password1" out.1 = some (.str "***")
    ∧ ∀ v, List.lookup "MqttPassword" out.1 = some v → v = .str "***" := by
  obtain ⟨r, hr⟩ := configure_ok_shape oracle ssid wifi_pass mqtt_host mqtt_port
    mqtt_user mqtt_pass topic out h
  rw [hr]
  exact ⟨redact_password1 r, fun v hv => redact_mqtt_password r v hv⟩

theorem C2_no_password_leak_witness :
    List.lookup "Password1"
        [("SSID1", Json.str "SSID1 s"), ("Password1", Json.str "***"),
         ("MqttHost", Json.str "MqttHost h"), ("MqttPort", Json.str "MqttPort 1883"),
         ("MqttUser", Json.str "MqttUser u"), ("MqttPassword", Json.str "***"),
         ("Topic", Json.str "Topic dev"), ("TelePeriod", Json.str "TelePeriod 10")] =
      some (Json.str "***")
    ∧ ∀ v, List.lookup "MqttPassword"
        [("SSID1", Json.str "SSID1 s"), ("Password1", Json.str "***"),
         ("MqttHost", Json.str "MqttHost h"), ("MqttPort", Json.str "MqttPort 1883"),
         ("MqttUser", Json.str "MqttUser u"), ("MqttPassword", Json.str "***"),
         ("Topic", Json.str "Topic dev"), ("TelePeriod", Json.str "TelePeriod 10")] =
      some v → v = Json.str "***" :=
  C2_no_password_leak (fun c => .ok (.str c)) "s" "w" "h" 1883 "u" "p" (some "dev")
    ([("SSID1", Json.str "SSID1 s"), ("Password1", Json.str "***"),
      ("MqttHost", Json.str "MqttHost h"), ("MqttPort", Json.str "MqttPort 1883"),
      ("MqttUser", Json.str "MqttUser u"), ("MqttPassword", Json.str "***"),
      ("Topic", Json.str "Topic dev"), ("TelePeriod", Json.str "TelePeriod 10")],
     ["SSID1 s", "Password1 w", "MqttHost h", "MqttPort 1883", "MqttUser u",
      "MqttPassword p", "Topic dev", "TelePeriod 10"]) rfl

/-- Claim C6, counterexample to the claim as stated: Under a transport that
answers every command with a distinctive raw response (here, the echo of
the command string), the returned result does *not* store the raw response
of the wifi-password command under its command name: the `Password1` entry
is the redaction marker `"***"`, which differs from that command's raw
response `"Password1 w"`. -/
theorem C6_counterexample :
    configure (fun c => .ok (.str c)) "s" "w" "h" 1883 "" "" none =
      .ok ([("SSID1", Json.str "SSID1 s"), ("Password1", Json.str "***"),
            ("MqttHost", Json.str "MqttHost h"), ("MqttPort", Json.str "MqttPort 1883"),
            ("TelePeriod", Json.str "TelePeriod 10")],
           ["SSID1 s", "Password1 w", "MqttHost h", "MqttPort 1883", "TelePeriod 10"])
    ∧ Json.str "***" ≠ Json.str ("Password1 " ++ "w") := by
  constructor
  · rfl
  · simp

/-- Claim C6, amended: When every command call succeeds, the commands issued
are exactly, in this order: `SSID1`, `Password1`, `MqttHost`, `MqttPort`,
`MqttUser` (only if a username was provided), `MqttPassword` (only if a
broker password was provided), `Topic` (only if a topic was provided), and
`TelePeriod 10`; and each command's raw response is stored under its
command name, except the `Password1` and `MqttPassword` entries, which are
overwritten with the redaction marker before the result is returned. -/
theorem C6_command_order (f : String → Json) (ssid wifi_pass mqtt_host : String)
    (mqtt_port : Int) (mqtt_user mqtt_pass : String) (topic : Option String) :
    configure (fun c => .ok (f c)) ssid wifi_pass mqtt_host mqtt_port mqtt_user
        mqtt_pass topic
      = .ok (
        [("SSID1", f ("SSID1 " ++ ssid)), ("Password1", Json.str "***"),
         ("MqttHost", f ("MqttHost " ++ mqtt_host)),
         ("MqttPort", f ("MqttPort " ++ toString mqtt_port))]
        ++ (if mqtt_user.isEmpty then [] else [("MqttUser", f ("MqttUser " ++ mqtt_user))])
        ++ (if mqtt_pass.isEmpty then [] else [("MqttPassword", Json.str "***")])
        ++ (match topic with
            | some t => if t.isEmpty then [] else [("Topic", f ("Topic " ++ t))]
            | none => [])
        ++ [("TelePeriod", f "TelePeriod 10")],
        ["SSID1 " ++ ssid, "Password1 " ++ wifi_pass, "MqttHost " ++ mqtt_host,
         "MqttPort " ++ toString mqtt_port]
        ++ (if mqtt_user.isEmpty then [] else ["MqttUser " ++ mqtt_user])
        ++ (if mqtt_pass.isEmpty then [] else ["MqttPassword " ++ mqtt_pass])
        ++ (match topic with
            | some t => if t.isEmpty then [] else ["Topic " ++ t]
            | none => [])
        ++ ["TelePeriod 10"]) := by
  cases topic with
  | none =>
    cases hu : mqtt_user.isEmpty <;> cases hp : mqtt_pass.isEmpty <;>
      simp [configure, reqCmd, optCmd, redact, dictSet, pyTruthy, hu, hp,
        bind, Except.bind, pure, Except.pure, List.lookup]
  | some t =>
    cases ht : t.isEmpty <;> cases hu : mqtt_user.isEmpty <;> cases hp : mqtt_pass.isEmpty <;>
      simp [configure, reqCmd, optCmd, redact, dictSet, pyTruthy, ht, hu, hp,
        bind, Except.bind, pure, Except.pure, List.lookup]

/-- A `ValidationRecord` (one per telemetry message, lines 172–180):
timestamp, validity flag, error list, and the parsed payload (absent when
parsing failed). -/
structure VRecord where
  ts : String
  valid : Bool
  errors : List String
  payload : Option Json

/-- The `on_message` callback body (lines 172–180) for one message, given
the outcome of `json.loads` on its raw bytes (`.error e` = parse failure
with error text `e`).  The `try` only covers parsing, so an exception
raised by `validate_payload` (non-dict payload, or non-dict non-null
section) propagates out of the callback: embedded as `.error`. -/
def handle_message (ts : String) (parsed : Except String Json) : Except String VRecord :=
  match parsed with
  | .error e => .ok ⟨ts, false, [e], none⟩
  | .ok payload =>
      match validate_payload payload with
      | .error e => .error e
      | .ok errs => .ok ⟨ts, errs.isEmpty, errs, some payload⟩

/-- What the listen window returns: the topic that was subscribed and the
accumulated records. -/
structure ListenResult where
  subscribedTopic : String
  records : List VRecord

/-- The record accumulation over the arrival-ordered messages.  A message
whose handler raises appends no record, and (paho's default
`suppress_exceptions = False`) the exception terminates the network-loop
thread, so no later message is processed either. -/
def processMessages : List (String × Except String Json) → List VRecord
  | [] => []
  | (ts, m) :: rest =>
      match handle_message ts m with
      | .ok r => r :: processMessages rest
      | .error _ => []

/-- Embedding of `subscribe_and_validate` (lines 160–199), abstracted over the
arrival-ordered parse outcomes of the messages delivered during the listen
window. -/
def subscribe_and_validate (topic : String)
    (msgs : List (String × Except String Json)) : ListenResult :=
  ⟨"tele/" ++ topic ++ "/SENSOR", processMessages msgs⟩

/-- The record §4.5 of the spec prescribes for one message: on parse
failure `valid = false`, the parse error text as the only error, and no
payload; on parse success the parsed payload with `valid` iff the schema
validator returned no errors.  (The last branch is unreachable when the
validator returns normally.) -/
def specRecord (ts : String) (m : Except String Json) : VRecord :=
  match m with
  | .error e => ⟨ts, false, [e], none⟩
  | .ok p =>
      match validate_payload p with
      | .ok errs => ⟨ts, errs.isEmpty, errs, some p⟩
      | .error _ => ⟨ts, false, [], none⟩

lemma processMessages_map (msgs : List (String × Except String Json))
    (h : ∀ p ∈ msgs, (handle_message p.1 p.2).isOk = true) :
    processMessages msgs = msgs.map (fun p => specRecord p.1 p.2) := by
  induction msgs with
  | nil => rfl
  | cons hd tl ih =>
    obtain ⟨ts, m⟩ := hd
    have hh := h (ts, m) (List.mem_cons_self _ _)
    have htl := fun p hp => h p (List.mem_cons_of_mem _ hp)
    cases hm : handle_message ts m with
    | error e => rw [hm] at hh; simp [Except.isOk, Except.toBool] at hh
    | ok r =>
      have hr : r = specRecord ts m := by
        cases m with
        | error e =>
          simp [handle_message] at hm
          simp [specRecord, ← hm]
        | ok p =>
          cases hv : validate_payload p with
          | error e => simp [handle_message, hv] at hm
          | ok errs =>
            simp [handle_message, hv] at hm
            simp [specRecord, hv, ← hm]
      simp [processMessages, hm, ih htl, hr]

/-- Claim C8, counterexample to the claim as stated: A message that parses
successfully to a non-object payload (here the JSON number `5`) produces
*no* validation record: `validate_payload` raises outside the `try` that
only covers parsing, so the callback aborts before appending.  One message
received, zero records appended. -/
theorem C8_counterexample :
    (subscribe_and_validate "top" [("t0", .ok (Json.num 5))]).records = []
    ∧ ([("t0", Except.ok (Json.num 5))] : List (String × Except String Json)).length = 1 :=
  ⟨rfl, rfl⟩

/-- Claim C8, amended: The subscribed topic is the fixed telemetry root,
then the device topic, then the fixed sensor leaf; and provided no
message's parsed payload makes the schema validator raise, exactly one
record is appended per message, in arrival order: on parse failure a
record with `valid = false`, the parse error text as its only error and no
payload; on parse success a record carrying the parsed payload whose
`valid` flag is true exactly when the schema validator returned zero
errors. -/
theorem C8_record_per_message (topic : String)
    (msgs : List (String × Except String Json))
    (h : ∀ p ∈ msgs, (handle_message p.1 p.2).isOk = true) :
    (subscribe_and_validate topic msgs).subscribedTopic = "tele/" ++ topic ++ "/SENSOR"
    ∧ (subscribe_and_validate topic msgs).records = msgs.map (fun p => specRecord p.1 p.2)
    ∧ ∀ p ∈ msgs, ∀ pay, p.2 = .ok pay → ∃ errs, validate_payload pay = .ok errs
        ∧ (specRecord p.1 p.2).valid = errs.isEmpty
        ∧ (specRecord p.1 p.2).errors = errs
        ∧ (specRecord p.1 p.2).payload = some pay := by
  refine ⟨rfl, processMessages_map msgs h, ?_⟩
  intro p hp pay hpay
  have hh := h p hp
  rw [hpay] at hh
  cases hv : validate_payload pay with
  | error e => simp [handle_message, hv, Except.isOk, Except.toBool] at hh
  | ok errs => exact ⟨errs, rfl, by simp [specRecord, hpay, hv]⟩

theorem C8_record_per_message_witness :
    (subscribe_and_validate "dev"
        [("t1", .error "Expecting value"),
         ("t2", .ok (Json.obj [("CustomSensor", Json.obj
            [("Temperature", Json.num 21), ("Humidity", Json.num 50),
             ("Pressure", Json.num 1013)])]))]).records =
      [("t1", Except.error "Expecting value"),
       ("t2", Except.ok (Json.obj [("CustomSensor", Json.obj
          [("Temperature", Json.num 21), ("Humidity", Json.num 50),
           ("Pressure", Json.num 1013)])]))].map (fun p => specRecord p.1 p.2) :=
  (C8_record_per_message "dev"
    [("t1", .error "Expecting value"),
     ("t2", .ok (Json.obj [("CustomSensor", Json.obj
        [("Temperature", Json.num 21), ("Humidity", Json.num 50),
         ("Pressure", Json.num 1013)])]))] (by decide)).2.1

/-- The report summary (`generate_report`, lines 205–223). -/
structure Summary where
  devices_found : Nat
  messages_received : Nat
  valid : Nat
  invalid : Nat
  pass : Bool

/-- The report (`generated_at` and the file write are outside the model:
the timestamp is wall-clock metadata and the write does not affect the
returned structure). -/
structure Report where
  summary : Summary
  devices : List Device
  configuration : ConfigRes
  validation : List VRecord

/-- Embedding of `generate_report` (lines 205–223): `passed` counts the records with
`valid == True`; `pass` is `passed > 0 and passed == len(validation)`. -/
def generate_report (devices : List Device) (config_res : ConfigRes)
    (validation : List VRecord) : Report :=
  let passed := (validation.filter (fun v => v.valid)).length
  { summary :=
      { devices_found := devices.length
        messages_received := validation.length
        valid := passed
        invalid := validation.length - passed
        pass := decide (0 < passed) && decide (passed = validation.length) }
    devices := devices
    configuration := config_res
    validation := validation }

/-- Claim C1: For every report built from a sequence of validation records,
`summary.valid + summary.invalid = summary.messages_received`, and
`summary.pass` is true iff `messages_received > 0` and
`valid = messages_received` (so zero messages received never passes). -/
theorem C1_summary_invariant (devices : List Device) (config_res : ConfigRes)
    (validation : List VRecord) :
    (generate_report devices config_res validation).summary.valid
      + (generate_report devices config_res validation).summary.invalid
      = (generate_report devices config_res validation).summary.messages_received
    ∧ ((generate_report devices config_res validation).summary.pass = true ↔
        0 < (generate_report devices config_res validation).summary.messages_received
        ∧ (generate_report devices config_res validation).summary.valid
          = (generate_report devices config_res validation).summary.messages_received) := by
  have hle : (validation.filter (fun v => v.valid)).length ≤ validation.length :=
    List.length_filter_le _ _
  constructor
  · simp only [generate_report]
    omega
  · simp only [generate_report, Bool.and_eq_true, decide_eq_true_eq]
    omega
